import Mathlib

/-!
# Verification of the `ai_anime_girl` avatar/chat front-end

This file gives a shallow embedding of the animation driver, the emotion
classifiers, the AI-response pipeline and the call controller of the
repository, and proves (or refutes) the specification claims about them.

Conventions:
* JavaScript numbers that only ever carry exact fractional constants are
  modelled as `ℚ`.
* Browser callbacks (`setInterval` / `requestAnimationFrame` ticks, audio
  element events) are modelled as explicit events consumed by step
  functions on explicit state records; one JS callback invocation is one
  step.
* `Math.random()` draws are passed in as explicit parameters.
-/

namespace AiAnimeGirl

/-! ## String helpers modelling JS `String.prototype` methods -/

/-- Here `startsWithChars needle hay` models checking that `hay` starts with
`needle` (character-by-character, as JS string methods do on code units). -/
def startsWithChars : List Char → List Char → Bool
  | [], _ => true
  | _ :: _, [] => false
  | a :: as, b :: bs => a == b && startsWithChars as bs

/-- Here `containsChars hay needle` models JS `hay.includes(needle)`: the
needle occurs starting at some position of `hay`. -/
def containsChars : List Char → List Char → Bool
  | [], needle => startsWithChars needle []
  | h :: t, needle => startsWithChars needle (h :: t) || containsChars t needle

/-- JS `s.includes(needle)`. -/
def jsIncludes (s needle : String) : Bool :=
  containsChars s.toList needle.toList

/-- JS `s.toLowerCase()` (ASCII letters; all inputs of interest are ASCII
text plus emoji, which `toLowerCase` leaves unchanged). -/
def jsToLower (s : String) : String :=
  ⟨s.data.map Char.toLower⟩

/-! ## Emotion classifiers

Two independent keyword classifiers exist in the source:
`AIService.detectEmotion` (src/services/aiService.ts) returning the
union type `'joy' | 'sadness' | 'surprise' | 'excitement' | 'love' |
'confusion'`, and `analyzeEmotion` (src/components/Call.tsx) returning a
plain string. -/

/-- The TS union type of `AIResponse.emotion`; note it has no `neutral`
member. -/
inductive Emotion where
  | joy
  | sadness
  | surprise
  | excitement
  | love
  | confusion
deriving DecidableEq

/-- The TS string literal each `Emotion` member denotes. -/
def emotionLabel : Emotion → String
  | .joy => "joy"
  | .sadness => "sadness"
  | .surprise => "surprise"
  | .excitement => "excitement"
  | .love => "love"
  | .confusion => "confusion"

/-- The `AIService.detectEmotion` method from src/services/aiService.ts: ordered
keyword rules over the lower-cased text, defaulting to `joy`. -/
def detectEmotion (text : String) : Emotion :=
  let lowerText := jsToLower text
  if jsIncludes lowerText "love" || jsIncludes lowerText "💕" ||
      jsIncludes lowerText "💖" then .love
  else if jsIncludes lowerText "excited" || jsIncludes lowerText "amazing" ||
      jsIncludes lowerText "wow" then .excitement
  else if jsIncludes lowerText "sad" || jsIncludes lowerText "sorry" ||
      jsIncludes lowerText "😢" then .sadness
  else if jsIncludes lowerText "?" || jsIncludes lowerText "confused" ||
      jsIncludes lowerText "🤔" then .confusion
  else if jsIncludes lowerText "surprise" || jsIncludes lowerText "unexpected" ||
      jsIncludes lowerText "😲" then .surprise
  else .joy

/-- Returns `true` iff some keyword rule of `detectEmotion` matches `text`. -/
def detectEmotionMatches (text : String) : Bool :=
  let l := jsToLower text
  jsIncludes l "love" || jsIncludes l "💕" || jsIncludes l "💖" ||
  jsIncludes l "excited" || jsIncludes l "amazing" || jsIncludes l "wow" ||
  jsIncludes l "sad" || jsIncludes l "sorry" || jsIncludes l "😢" ||
  jsIncludes l "?" || jsIncludes l "confused" || jsIncludes l "🤔" ||
  jsIncludes l "surprise" || jsIncludes l "unexpected" || jsIncludes l "😲"

/-- The `analyzeEmotion` function from src/components/Call.tsx: ordered keyword rules
over the lower-cased text, defaulting to the string `"neutral"`. -/
def analyzeEmotion (text : String) : String :=
  let lowerText := jsToLower text
  if jsIncludes lowerText "love" || jsIncludes lowerText "💕" ||
      jsIncludes lowerText "💖" || jsIncludes lowerText "amazing" then "love"
  else if jsIncludes lowerText "happy" || jsIncludes lowerText "✨" ||
      jsIncludes lowerText "wonderful" || jsIncludes lowerText "excited" then "joy"
  else if jsIncludes lowerText "sad" || jsIncludes lowerText "miss" ||
      jsIncludes lowerText "😢" then "sadness"
  else if jsIncludes lowerText "surprised" || jsIncludes lowerText "wow" ||
      jsIncludes lowerText "😮" then "surprise"
  else if jsIncludes lowerText "angry" || jsIncludes lowerText "mad" ||
      jsIncludes lowerText "😠" then "anger"
  else if jsIncludes lowerText "confused" || jsIncludes lowerText "hmm" ||
      jsIncludes lowerText "🤔" then "confusion"
  else if jsIncludes lowerText "shy" || jsIncludes lowerText "blush" ||
      jsIncludes lowerText "😊" then "blushing"
  else "neutral"

/-- Returns `true` iff some keyword rule of `analyzeEmotion` matches `text`. -/
def analyzeEmotionMatches (text : String) : Bool :=
  let l := jsToLower text
  jsIncludes l "love" || jsIncludes l "💕" || jsIncludes l "💖" ||
  jsIncludes l "amazing" ||
  jsIncludes l "happy" || jsIncludes l "✨" || jsIncludes l "wonderful" ||
  jsIncludes l "excited" ||
  jsIncludes l "sad" || jsIncludes l "miss" || jsIncludes l "😢" ||
  jsIncludes l "surprised" || jsIncludes l "wow" || jsIncludes l "😮" ||
  jsIncludes l "angry" || jsIncludes l "mad" || jsIncludes l "😠" ||
  jsIncludes l "confused" || jsIncludes l "hmm" || jsIncludes l "🤔" ||
  jsIncludes l "shy" || jsIncludes l "blush" || jsIncludes l "😊"

/-! ## AI response pipeline

`AIService` (src/services/aiService.ts) and the `generateResponse` of the
`usePersonality` hook (src/hooks/usePersonality.ts).  Remote HTTP calls are
modelled by an oracle `remote : Except String AIResponse` (the `Error`
carries the thrown message); each `Math.random()` draw used to index the
seven canned fallback responses is modelled as a `Fin 7`, the exact range
of `Math.floor(Math.random() * responses.length)`. -/

/-- The `AIResponse` interface of src/services/aiService.ts. -/
structure AIResponse where
  text : String
  emotion : Emotion
deriving DecidableEq

/-- The `provider` field of `AIServiceConfig`. -/
inductive Provider where
  | openai
  | anthropic
  | gemini
  | localProvider
deriving DecidableEq

/-- The `responses` array inside `AIService.generateLocalResponse`. -/
def localResponses : List AIResponse :=
  [ ⟨"That's really interesting! Tell me more! ✨", .joy⟩,
    ⟨"I love talking with you! You're so fun! 😊", .joy⟩,
    ⟨"Hmm, that's something to think about! 🤔", .confusion⟩,
    ⟨"You always know how to make me smile! 💕", .love⟩,
    ⟨"I'm so lucky to have you as my friend! 🌟", .joy⟩,
    ⟨"Really? That sounds amazing! Tell me more! ✨", .excitement⟩,
    ⟨"I find that so fascinating! You're really smart! 💖", .joy⟩ ]

/-- The `AIService.generateLocalResponse` method: keyword-matched canned replies,
falling back to `responses[Math.floor(Math.random() * responses.length)]`
where the random index is the parameter `r`. -/
def generateLocalResponse (userMessage : String) (r : Fin 7) : AIResponse :=
  let message := jsToLower userMessage
  if jsIncludes message "love" || jsIncludes message "like you" then
    ⟨"Aww, I love you too! You're so sweet! 💖", .love⟩
  else if jsIncludes message "sad" || jsIncludes message "upset" then
    ⟨"Oh no, what's wrong? I'm here for you! *hugs* 🤗", .sadness⟩
  else if jsIncludes message "happy" || jsIncludes message "excited" then
    ⟨"Yay! Your happiness makes me happy too! ✨", .joy⟩
  else if jsIncludes message "hello" || jsIncludes message "hi" then
    ⟨"Hello! I'm so happy to see you! 💕", .joy⟩
  else
    localResponses.getD r.val ⟨"", .joy⟩

/-- The `AIService.generateResponse` method: dispatch on the configured provider.
The three HTTP-backed providers are the oracle `remote`; the `default`
branch of the `switch` is `generateLocalResponse`. -/
def serviceGenerateResponse (provider : Provider) (userMessage : String)
    (remote : Except String AIResponse) (r : Fin 7) : Except String AIResponse :=
  match provider with
  | .localProvider => .ok (generateLocalResponse userMessage r)
  | _ => remote

/-- The annotation appended to a fallback reply in
`usePersonality.generateResponse`'s catch branch. -/
def degradedNote : String :=
  "\n\n*Note: Using local responses due to API issue. Check AI Config to resolve.*"

/-- The `generateResponse` function of the `usePersonality` hook: try the configured
service; on any thrown error, build a fresh local-provider `AIService`,
take its reply (with its own random draw `rFb`) and append
`degradedNote` to its text.  The function is total: it always returns an
`AIResponse` (the promise always resolves). -/
def personalityGenerateResponse (provider : Provider) (userMessage : String)
    (remote : Except String AIResponse) (r rFb : Fin 7) : AIResponse :=
  match serviceGenerateResponse provider userMessage remote r with
  | .ok resp => resp
  | .error _ =>
      let fallbackResponse := generateLocalResponse userMessage rFb
      { fallbackResponse with text := fallbackResponse.text ++ degradedNote }

/-! ## The avatar handle and render-loop mouth application

`AnimeAvatar` (src/components/AnimeAvatar.tsx, reproduced in the README):
`setMouthOpen` stores its argument in `currentMouthOpen` unmodified, and
each `animate` frame passes `currentMouthOpen.current` straight to
`expressionManager.setValue('aa', ·)`. -/

/-- The refs of the `AnimeAvatar` component that the imperative handle
mutates. -/
structure AvatarState where
  currentMouthOpen : ℚ
  currentExpression : String
deriving DecidableEq

/-- Initial refs: `currentExpression = 'neutral'`, `currentMouthOpen = 0`. -/
def initialAvatarState : AvatarState :=
  ⟨0, "neutral"⟩

/-- The handle method `setMouthOpen`: stores the raw argument. -/
def setMouthOpen (v : ℚ) (s : AvatarState) : AvatarState :=
  { s with currentMouthOpen := v }

/-- The handle method `setExpression`. -/
def setExpression (e : String) (s : AvatarState) : AvatarState :=
  { s with currentExpression := e }

/-- The weight `animate` passes to `setValue('aa', ·)` each frame. -/
def appliedAA (s : AvatarState) : ℚ :=
  s.currentMouthOpen

/-- The App lip-sync frame callback (src/App.tsx): clamp the raw volume
into [0,1] before calling `setMouthOpen`. -/
def appFrameMouthOpen (volume : ℚ) : ℚ :=
  max 0 (min 1 volume)

/-- One tick of the call controller's lip-sync interval (`startLipSync`
in src/components/Call.tsx): `baseOpen + variation + random` clamped to
[0,1].  `sinVal` stands for `Math.sin(time * 8)` and `rnd` for the
`Math.random()` draw. -/
def callLipSyncMouthOpen (sinVal rnd : ℚ) : ℚ :=
  max 0 (min 1 (1/5 + sinVal * (3/10) + (rnd - 1/2) * (1/10)))

/-! ## The blink state machine of the avatar render loop

The `animate` loop of `AnimeAvatar` advances `blinkTimer` by `1/60` each
frame and runs the blink sub-state machine with `blinkDuration = 0.1` and
`nextBlink` redrawn as `1.5 + Math.random() * 2.5`. -/

/-- The blink-related locals of the `AnimeAvatar` effect. -/
structure BlinkState where
  blinkTimer : ℚ
  isBlinking : Bool
  nextBlink : ℚ
deriving DecidableEq

/-- The frame delta used by `animate` (`1 / 60`). -/
def frameDelta : ℚ := 1 / 60

/-- The `blinkDuration` local: 0.1 seconds. -/
def blinkDuration : ℚ := 1 / 10

/-- A fresh `nextBlink` value: `1.5 + Math.random() * 2.5` with the
random draw `rnd`. -/
def drawNextBlink (rnd : ℚ) : ℚ :=
  3/2 + rnd * (5/2)

/-- One frame of the blink logic in `animate`.  `rnd` is the
`Math.random()` value consumed if this frame ends a blink. -/
def stepBlink (rnd : ℚ) (s : BlinkState) : BlinkState :=
  let t := s.blinkTimer + frameDelta
  if s.isBlinking then
    if t > blinkDuration then ⟨0, false, drawNextBlink rnd⟩
    else ⟨t, true, s.nextBlink⟩
  else
    if t > s.nextBlink then ⟨0, true, s.nextBlink⟩
    else ⟨t, false, s.nextBlink⟩

/-- Iterate the blink machine for `k` frames, frame `j` consuming the
draw `rnd j`. -/
def runBlink (rnd : ℕ → ℚ) : ℕ → BlinkState → BlinkState
  | 0, s => s
  | k + 1, s => stepBlink (rnd k) (runBlink rnd k s)

/-- The weight the frame leaves on the `blink` expression: `1.0` while
`isBlinking`, else `0.0` (in a transition frame the later `setValue`
call wins, so the end-of-frame state decides). -/
def appliedBlink (s : BlinkState) : ℚ :=
  if s.isBlinking then 1 else 0

/-! ## The `speakWithLipSync` driver of `Voice`

src/components/Voice.tsx keeps one audio element in `audioElementRef`;
each `speak` call first pauses and discards the previous element (its
`onpause` handler cancels that session's animation frame and writes `0`
through the frame callback), then creates and plays a new element whose
`requestAnimationFrame` loop writes a fake volume each frame.

Sessions (one per `speak` invocation, i.e. one audio element plus the
`rafId` of its closure) are identified by naturals.  One browser event is
one step; a step returns the successor state together with the list of
`(session, value)` mouth-open writes it performs through
`onAudioPlayFrameRef`, tagged by the session whose handler or loop
performed the write. -/

/-- Driver state: the element currently in `audioElementRef` (and
playing), the sessions with a pending `requestAnimationFrame` callback,
and the `isSpeaking` flag. -/
structure VoiceState where
  current : Option ℕ
  scheduled : List ℕ
  speaking : Bool
deriving DecidableEq

/-- Browser events consumed by the driver.  `rafFire sid vol` is session
`sid`'s animation-frame callback running, where `vol` is the fake volume
`0.5 + 0.5 * |Math.sin(currentTime * 8)|` it would sample;
`audioEnded` / `audioError` are the element's `ended` / `error` events
(only the playing element can fire them). -/
inductive VoiceEvent where
  | speak (newId : ℕ)
  | rafFire (sid : ℕ) (vol : ℚ)
  | audioEnded (sid : ℕ)
  | audioError (sid : ℕ)
deriving DecidableEq

/-- Models `audioElementRef.current.pause()` followed by discarding the ref: the
element's `onpause` handler cancels its animation frame and writes `0`. -/
def pauseCurrent (s : VoiceState) : VoiceState × List (ℕ × ℚ) :=
  match s.current with
  | none => (s, [])
  | some a => (⟨none, s.scheduled.erase a, s.speaking⟩, [(a, 0)])

/-- One event step of the driver.

* `speak n`: pause/discard the previous element, then start session `n`
  (`setIsSpeaking(true)`, element plays, `onplay` schedules its loop).
* `rafFire a vol`: if `a`'s callback is pending, run `animateLipSync`:
  when a playing element exists the loop writes `vol` and re-schedules
  itself, otherwise it just stops.
* `audioEnded a`: `onended` sets `isSpeaking` to `false`, cancels `a`'s
  animation frame and writes `0`; the element stops playing.
* `audioError a`: `onerror` only sets `isSpeaking` to `false`. -/
def voiceStep : VoiceEvent → VoiceState → VoiceState × List (ℕ × ℚ)
  | .speak n, s =>
      let p := pauseCurrent s
      (⟨some n, n :: p.1.scheduled, true⟩, p.2)
  | .rafFire a vol, s =>
      if a ∈ s.scheduled then
        match s.current with
        | some _ => (s, [(a, vol)])
        | none => (⟨s.current, s.scheduled.erase a, s.speaking⟩, [])
      else (s, [])
  | .audioEnded a, s =>
      if s.current = some a then
        (⟨none, s.scheduled.erase a, false⟩, [(a, 0)])
      else (s, [])
  | .audioError a, s =>
      if s.current = some a then
        (⟨s.current, s.scheduled, false⟩, [])
      else (s, [])

/-- Run a list of events, accumulating the writes they perform. -/
def voiceRun : List VoiceEvent → VoiceState → VoiceState × List (ℕ × ℚ)
  | [], s => (s, [])
  | e :: es, s =>
      let p := voiceStep e s
      let q := voiceRun es p.1
      (q.1, p.2 ++ q.2)

/-! ## The call controller (`Call`)

src/components/Call.tsx.  The three `setInterval` handles, the call
timer and the conversation session become booleans (`null` / non-`null`);
the avatar writes the controller performs are recorded in an embedded
`AvatarState`. -/

/-- The refs and state of the `Call` component that the claims concern. -/
structure CallState where
  lipSyncOn : Bool
  blinkOn : Bool
  headMovementOn : Bool
  callTimerOn : Bool
  conversationOn : Bool
  isInCall : Bool
  isListening : Bool
  agentStatus : String
  currentEmotion : String
  avatar : AvatarState
  /-- The blink-restore `setTimeout` a firing blink-interval tick
  schedules (150 ms, `setExpression(currentEmotion)`): `some e` when one
  is pending with captured emotion `e`.  No function of the component
  stores or clears its handle. -/
  pendingBlinkRestore : Option String
deriving DecidableEq

/-- The `startLipSync` function: clear any previous interval, install a new one. -/
def startLipSync (s : CallState) : CallState :=
  { s with lipSyncOn := true }

/-- The `stopLipSync` function: clear the interval and `setMouthOpen(0)`. -/
def stopLipSync (s : CallState) : CallState :=
  { s with lipSyncOn := false, avatar := setMouthOpen 0 s.avatar }

/-- The `startBlinking` function. -/
def startBlinking (s : CallState) : CallState :=
  { s with blinkOn := true }

/-- The `stopBlinking` function (does not touch the avatar). -/
def stopBlinking (s : CallState) : CallState :=
  { s with blinkOn := false }

/-- The `startHeadMovement` function. -/
def startHeadMovement (s : CallState) : CallState :=
  { s with headMovementOn := true }

/-- The `stopHeadMovement` function (does not touch the avatar). -/
def stopHeadMovement (s : CallState) : CallState :=
  { s with headMovementOn := false }

/-- One tick of the lip-sync interval: writes the clamped value (see
`callLipSyncMouthOpen`) if the interval is installed. -/
def lipSyncTick (sinVal rnd : ℚ) (s : CallState) : CallState :=
  if s.lipSyncOn then
    { s with avatar := setMouthOpen (callLipSyncMouthOpen sinVal rnd) s.avatar }
  else s

/-- One tick of the blink interval (`startBlinking`'s callback): when the
`Math.random() < 0.02` draw — modelled as `shouldBlink` — fires, write the
`blink` expression to the avatar and schedule the 150 ms `setTimeout`
that will restore the `currentEmotion` captured now. -/
def blinkTick (shouldBlink : Bool) (s : CallState) : CallState :=
  if s.blinkOn && shouldBlink then
    { s with
      avatar := setExpression "blink" s.avatar
      pendingBlinkRestore := some s.currentEmotion }
  else s

/-- The pending blink-restore `setTimeout` firing: write the captured
emotion back as the avatar expression. -/
def blinkRestoreFire (s : CallState) : CallState :=
  match s.pendingBlinkRestore with
  | some e => { s with avatar := setExpression e s.avatar, pendingBlinkRestore := none }
  | none => s

/-- The `endCall` function: stop all animations, end the session, clear the call
timer, reset the avatar to `neutral` / mouth `0`, reset the UI state.
Nothing in it touches a pending blink-restore timeout. -/
def endCall (s : CallState) : CallState :=
  let s1 := stopHeadMovement (stopBlinking (stopLipSync s))
  { s1 with
    conversationOn := false
    callTimerOn := false
    avatar := setMouthOpen 0 (setExpression "neutral" s1.avatar)
    isInCall := false
    isListening := false
    currentEmotion := "neutral"
    agentStatus := "disconnected" }

/-- The `onConnect` handler of `startSession`: status, flags, start
blinking and head movement, start the call timer. -/
def onConnect (s : CallState) : CallState :=
  let s1 := startHeadMovement (startBlinking s)
  { s1 with agentStatus := "connected", isInCall := true, callTimerOn := true }

/-- The `onDisconnect` handler: status and flags, clear the call timer —
and nothing else. -/
def onDisconnect (s : CallState) : CallState :=
  { s with
    agentStatus := "disconnected"
    isInCall := false
    isListening := false
    callTimerOn := false }

/-- The `onError` handler: `setAgentStatus('error')` only. -/
def onError (s : CallState) : CallState :=
  { s with agentStatus := "error" }

/-- The `onModeChange` handler for `mode === 'speaking'` (the emotion
update from `currentTranscript` is elided: it does not touch the timers
or the mouth). -/
def onModeSpeaking (s : CallState) : CallState :=
  let s1 := startHeadMovement (startBlinking (startLipSync s))
  { s1 with isListening := false }

/-- The `onModeChange` handler for `mode === 'listening'`. -/
def onModeListening (s : CallState) : CallState :=
  let s1 := startHeadMovement (startBlinking (stopLipSync s))
  { s1 with
    isListening := true
    currentEmotion := "neutral"
    avatar := setExpression "neutral" s1.avatar }

/-! ## The App message pipeline (`handleSendMessage` and the transcripts)

src/App.tsx.  A chat message is a `(sender, text)` pair; the number of
outstanding `generateResponse` requests is tracked explicitly (the code
holds at most the one awaited inside the running `handleSendMessage`). -/

/-- A chat message as far as the gating claims are concerned. -/
structure ChatMessage where
  sender : String
  text : String
deriving DecidableEq

/-- App component state relevant to the send gate. -/
structure AppState where
  isProcessing : Bool
  isTyping : Bool
  messages : List ChatMessage
  inFlight : ℕ
deriving DecidableEq

/-- The `handleSendMessage` callback: bail out when already processing or the trimmed
text is empty; otherwise set the gate, append the user message and start
one generation request. -/
def handleSendMessage (text : String) (s : AppState) : AppState :=
  if s.isProcessing || text.trim == "" then s
  else
    { s with
      isProcessing := true
      isTyping := true
      messages := s.messages ++ [⟨"user", text.trim⟩]
      inFlight := s.inFlight + 1 }

/-- The `handleVoiceTranscript` callback: forward to `handleSendMessage` only when the
trimmed transcript is non-empty and not processing. -/
def handleVoiceTranscript (transcript : String) (s : AppState) : AppState :=
  if !(transcript.trim == "") && !s.isProcessing then handleSendMessage transcript s
  else s

/-- The `handleCallTranscript` callback: same gate as `handleVoiceTranscript`. -/
def handleCallTranscript (transcript : String) (s : AppState) : AppState :=
  if !(transcript.trim == "") && !s.isProcessing then handleSendMessage transcript s
  else s

/-- Completion of the awaited `generateResponse` (both the success path
and the catch path append one AI message; the `finally` clears the
gate).  Only an outstanding request can complete. -/
def handleResponseComplete (reply : String) (s : AppState) : AppState :=
  if s.inFlight = 0 then s
  else
    { s with
      isProcessing := false
      isTyping := false
      messages := s.messages ++ [⟨"ai", reply⟩]
      inFlight := s.inFlight - 1 }

/-- Events of the App pipeline. -/
inductive AppEvent where
  | send (text : String)
  | voiceTranscript (text : String)
  | callTranscript (text : String)
  | responseComplete (reply : String)
deriving DecidableEq

/-- One App event step. -/
def appStep : AppEvent → AppState → AppState
  | .send t, s => handleSendMessage t s
  | .voiceTranscript t, s => handleVoiceTranscript t s
  | .callTranscript t, s => handleCallTranscript t s
  | .responseComplete r, s => handleResponseComplete r s

/-- Run a list of App events from a state. -/
def appRun : List AppEvent → AppState → AppState
  | [], s => s
  | e :: es, s => appRun es (appStep e s)

/-- The initial App state: not processing, not typing, the hard-coded
greeting message, no request in flight. -/
def initialAppState : AppState :=
  ⟨false, false,
    [⟨"ai", "Hi there! I'm so happy to meet you! 💕 How are you doing today?"⟩], 0⟩

/-! ## Claims C6 and C7: the emotion classifiers -/

/-- C6 (counterexample): the claim says both classifier instances return
the default label `neutral` on keyword-free input, but
`AIService.detectEmotion` returns `joy` on such input (its return type
does not even contain a `neutral` member): on `"zzz"`, which matches no
rule of either classifier, `detectEmotion` yields `joy`, not
`neutral`. -/
theorem detectEmotion_default_not_neutral :
    detectEmotionMatches "zzz" = false ∧
    detectEmotion "zzz" = Emotion.joy ∧
    emotionLabel (detectEmotion "zzz") ≠ "neutral" := by
  decide

/-- C6 (amended): on input matching none of its keyword rules,
`analyzeEmotion` (call controller) returns the default `"neutral"`,
while `detectEmotion` (AI service) returns its default `joy`. -/
theorem classifier_default_labels (t : String) :
    (analyzeEmotionMatches t = false → analyzeEmotion t = "neutral") ∧
    (detectEmotionMatches t = false → detectEmotion t = Emotion.joy) := by
  constructor
  · intro h
    unfold analyzeEmotionMatches at h
    unfold analyzeEmotion
    simp only [Bool.or_eq_false_iff] at h
    simp_all
  · intro h
    unfold detectEmotionMatches at h
    unfold detectEmotion
    simp only [Bool.or_eq_false_iff] at h
    simp_all

/-- C6 (witness): the amended default-label behaviour at the concrete
keyword-free input `"zzz"`. -/
theorem classifier_default_labels_witness :
    analyzeEmotionMatches "zzz" = false ∧ detectEmotionMatches "zzz" = false ∧
    analyzeEmotion "zzz" = "neutral" ∧ detectEmotion "zzz" = Emotion.joy :=
  ⟨by decide, by decide,
    (classifier_default_labels "zzz").1 (by decide),
    (classifier_default_labels "zzz").2 (by decide)⟩

/-- C7: `"I am so happy and in love 💕"` classifies as love in both
classifier instances, although the text also matches the later
happy-rule — the love-rule wins because it comes first in the fixed rule
order. -/
theorem love_rule_precedes_joy_rule :
    detectEmotion "I am so happy and in love 💕" = Emotion.love ∧
    analyzeEmotion "I am so happy and in love 💕" = "love" ∧
    jsIncludes (jsToLower "I am so happy and in love 💕") "happy" = true ∧
    jsIncludes (jsToLower "I am so happy and in love 💕") "love" = true := by
  decide

/-! ## Claims C8 and C9: the fallback response generator -/

/-- C8: whenever the configured provider call throws, the hook's
`generateResponse` still resolves, with the local generator's reply and
`degradedNote` appended to its text. -/
theorem provider_failure_falls_back (provider : Provider) (userMessage : String)
    (remote : Except String AIResponse) (r rFb : Fin 7) (e : String)
    (h : serviceGenerateResponse provider userMessage remote r = .error e) :
    personalityGenerateResponse provider userMessage remote r rFb =
      { generateLocalResponse userMessage rFb with
        text := (generateLocalResponse userMessage rFb).text ++ degradedNote } := by
  unfold personalityGenerateResponse
  rw [h]

/-- C8 (witness): a Gemini-configured service whose HTTP call throws a
quota error still yields an annotated local reply. -/
theorem provider_failure_falls_back_witness :
    serviceGenerateResponse .gemini "zzz" (.error "Gemini API quota exceeded") 0 =
      .error "Gemini API quota exceeded" ∧
    personalityGenerateResponse .gemini "zzz" (.error "Gemini API quota exceeded") 0 0 =
      { generateLocalResponse "zzz" 0 with
        text := (generateLocalResponse "zzz" 0).text ++ degradedNote } :=
  ⟨rfl, provider_failure_falls_back .gemini "zzz" (.error "Gemini API quota exceeded")
    0 0 "Gemini API quota exceeded" rfl⟩

/-- C9 (counterexample): the local fallback generator is not
deterministic in the input text alone: on a message matching no keyword
rule, two calls whose `Math.random()` draws differ return different
replies. -/
theorem local_generator_random_dependence :
    generateLocalResponse "What a day it has been." 0 ≠
      generateLocalResponse "What a day it has been." 5 := by
  decide

/-- The disjunction of the keyword-rule conditions of
`generateLocalResponse`. -/
def localKeywordMatches (userMessage : String) : Bool :=
  let message := jsToLower userMessage
  (jsIncludes message "love" || jsIncludes message "like you") ||
  (jsIncludes message "sad" || jsIncludes message "upset") ||
  (jsIncludes message "happy" || jsIncludes message "excited") ||
  (jsIncludes message "hello" || jsIncludes message "hi")

/-- C9 (amended): the local fallback generator is deterministic exactly
on the keyword-matched messages: when some keyword rule matches, the
reply does not depend on the random draw. -/
theorem local_generator_deterministic_on_keywords (userMessage : String)
    (r₁ r₂ : Fin 7) (h : localKeywordMatches userMessage = true) :
    generateLocalResponse userMessage r₁ = generateLocalResponse userMessage r₂ := by
  unfold localKeywordMatches at h
  unfold generateLocalResponse
  cases hc1 : (jsIncludes (jsToLower userMessage) "love" ||
      jsIncludes (jsToLower userMessage) "like you") <;>
    cases hc2 : (jsIncludes (jsToLower userMessage) "sad" ||
      jsIncludes (jsToLower userMessage) "upset") <;>
    cases hc3 : (jsIncludes (jsToLower userMessage) "happy" ||
      jsIncludes (jsToLower userMessage) "excited") <;>
    cases hc4 : (jsIncludes (jsToLower userMessage) "hello" ||
      jsIncludes (jsToLower userMessage) "hi") <;>
    simp_all

/-- C9 (witness): the amended determinism at the concrete keyword input
`"hello"` with two different draws. -/
theorem local_generator_deterministic_on_keywords_witness :
    localKeywordMatches "hello" = true ∧
    generateLocalResponse "hello" 0 = generateLocalResponse "hello" 3 :=
  ⟨by decide, local_generator_deterministic_on_keywords "hello" 0 3 (by decide)⟩

/-! ## Claim C1: range of the applied mouth-open and blink weights -/

/-- C1 (counterexample): the claim requires every value applied to the
`aa` blend shape to lie in [0,1] for *direct* `setMouthOpen` calls too,
but the avatar handle stores its argument unclamped and the render loop
applies it as-is: after `setMouthOpen(2)` the applied weight is `2`. -/
theorem setMouthOpen_applies_unclamped :
    appliedAA (setMouthOpen 2 initialAvatarState) = 2 ∧
    ¬ appliedAA (setMouthOpen 2 initialAvatarState) ≤ 1 := by
  constructor
  · rfl
  · norm_num [appliedAA, setMouthOpen, initialAvatarState]

/-- C1 (amended): the App lip-sync frame callback and the call
controller's lip-sync interval clamp into [0,1] before writing, and the
blink weight the render loop applies is always 0 or 1; a direct
`setMouthOpen` call keeps the applied `aa` weight in [0,1] only when its
argument already is. -/
theorem applied_weights_in_range (volume sinVal rnd v : ℚ) (s : AvatarState)
    (b : BlinkState) (hv0 : 0 ≤ v) (hv1 : v ≤ 1) :
    (0 ≤ appFrameMouthOpen volume ∧ appFrameMouthOpen volume ≤ 1) ∧
    (0 ≤ callLipSyncMouthOpen sinVal rnd ∧ callLipSyncMouthOpen sinVal rnd ≤ 1) ∧
    (0 ≤ appliedAA (setMouthOpen (appFrameMouthOpen volume) s) ∧
      appliedAA (setMouthOpen (appFrameMouthOpen volume) s) ≤ 1) ∧
    (0 ≤ appliedAA (setMouthOpen (callLipSyncMouthOpen sinVal rnd) s) ∧
      appliedAA (setMouthOpen (callLipSyncMouthOpen sinVal rnd) s) ≤ 1) ∧
    (0 ≤ appliedAA (setMouthOpen v s) ∧ appliedAA (setMouthOpen v s) ≤ 1) ∧
    (0 ≤ appliedBlink b ∧ appliedBlink b ≤ 1) := by
  have hclamp : ∀ x : ℚ, 0 ≤ max 0 (min 1 x) ∧ max 0 (min 1 x) ≤ 1 := by
    intro x
    refine ⟨le_max_left 0 (min 1 x), max_le (by norm_num) (min_le_left 1 x)⟩
  refine ⟨hclamp volume, hclamp _, hclamp volume, hclamp _, ⟨hv0, hv1⟩, ?_⟩
  unfold appliedBlink
  by_cases hb : b.isBlinking <;> simp [hb]

/-- C1 (witness): the amended range facts at a concrete out-of-range raw
volume (5), concrete oscillator inputs and an in-range direct write. -/
theorem applied_weights_in_range_witness :
    (0 ≤ (1/2 : ℚ) ∧ (1/2 : ℚ) ≤ 1) ∧
    ((0 ≤ appFrameMouthOpen 5 ∧ appFrameMouthOpen 5 ≤ 1) ∧
      (0 ≤ callLipSyncMouthOpen 2 3 ∧ callLipSyncMouthOpen 2 3 ≤ 1) ∧
      (0 ≤ appliedAA (setMouthOpen (appFrameMouthOpen 5) initialAvatarState) ∧
        appliedAA (setMouthOpen (appFrameMouthOpen 5) initialAvatarState) ≤ 1) ∧
      (0 ≤ appliedAA (setMouthOpen (callLipSyncMouthOpen 2 3) initialAvatarState) ∧
        appliedAA (setMouthOpen (callLipSyncMouthOpen 2 3) initialAvatarState) ≤ 1) ∧
      (0 ≤ appliedAA (setMouthOpen (1/2) initialAvatarState) ∧
        appliedAA (setMouthOpen (1/2) initialAvatarState) ≤ 1) ∧
      (0 ≤ appliedBlink ⟨0, false, 2⟩ ∧ appliedBlink ⟨0, false, 2⟩ ≤ 1)) :=
  ⟨⟨by norm_num, by norm_num⟩,
    applied_weights_in_range 5 2 3 (1/2) initialAvatarState ⟨0, false, 2⟩
      (by norm_num) (by norm_num)⟩

/-! ## Claim C3: cleanup on `endCall`, `onDisconnect`, `onError` -/

/-- A call state mid-utterance: connected, agent speaking, all
animation intervals installed, mouth half-open, a non-neutral
expression. -/
def demoCallState : CallState :=
  { lipSyncOn := true
    blinkOn := true
    headMovementOn := true
    callTimerOn := true
    conversationOn := true
    isInCall := true
    isListening := false
    agentStatus := "connected"
    currentEmotion := "love"
    avatar := ⟨1/2, "happy"⟩
    pendingBlinkRestore := none }

/-- C3 (counterexample): the claim fails on all three paths it names.
On a mid-utterance state, `onDisconnect` leaves the lip-sync, blink and
head-movement intervals installed and the avatar untouched, and
`onError` changes nothing but the status string.  And even for
`endCall` the "no further scheduled animation callbacks" clause fails:
a blink-interval tick that fired just before schedules the 150 ms
expression-restore timeout capturing `currentEmotion = "love"`;
`endCall` resets the expression to `neutral` but does not cancel that
timeout, which then fires and overwrites the reset with `"love"`. -/
theorem call_cleanup_counterexample :
    (onDisconnect demoCallState).lipSyncOn = true ∧
    (onDisconnect demoCallState).blinkOn = true ∧
    (onDisconnect demoCallState).headMovementOn = true ∧
    (onDisconnect demoCallState).avatar.currentMouthOpen = 1/2 ∧
    (onDisconnect demoCallState).avatar.currentExpression = "happy" ∧
    (onError demoCallState).lipSyncOn = true ∧
    (onError demoCallState).callTimerOn = true ∧
    (onError demoCallState).avatar.currentMouthOpen = 1/2 ∧
    (onError demoCallState).avatar.currentExpression = "happy" ∧
    (endCall (blinkTick true demoCallState)).avatar.currentExpression = "neutral" ∧
    (endCall (blinkTick true demoCallState)).pendingBlinkRestore = some "love" ∧
    (blinkRestoreFire (endCall (blinkTick true demoCallState))).avatar.currentExpression
      = "love" ∧
    (blinkRestoreFire (endCall (blinkTick true demoCallState))).avatar.currentExpression
      ≠ "neutral" :=
  ⟨rfl, rfl, rfl, rfl, rfl, rfl, rfl, rfl, rfl, rfl, rfl, rfl, by decide⟩

/-- C3 (amended): `endCall` stops the lip-sync, blink and head-movement
intervals and the call timer, ends the session, and resets the avatar to
mouth `0` and `neutral`, after which lip-sync and blink interval ticks
are no-ops — but it does not cancel a pending blink-restore timeout,
which still fires afterwards and overwrites the neutral reset with the
emotion it captured; `onDisconnect` merely clears the call timer and the
in-call/listening flags, and `onError` merely sets the error status,
neither stopping the animation intervals nor resetting the avatar. -/
theorem endCall_full_unwind (s : CallState) (sinVal rnd : ℚ) (sb : Bool) :
    (endCall s).lipSyncOn = false ∧
    (endCall s).blinkOn = false ∧
    (endCall s).headMovementOn = false ∧
    (endCall s).callTimerOn = false ∧
    (endCall s).conversationOn = false ∧
    (endCall s).avatar.currentMouthOpen = 0 ∧
    (endCall s).avatar.currentExpression = "neutral" ∧
    lipSyncTick sinVal rnd (endCall s) = endCall s ∧
    blinkTick sb (endCall s) = endCall s ∧
    (endCall s).pendingBlinkRestore = s.pendingBlinkRestore ∧
    (blinkRestoreFire (endCall s)).avatar.currentExpression
      = s.pendingBlinkRestore.getD "neutral" ∧
    (onDisconnect s).callTimerOn = false ∧
    (onDisconnect s).isInCall = false ∧
    (onDisconnect s).lipSyncOn = s.lipSyncOn ∧
    (onDisconnect s).blinkOn = s.blinkOn ∧
    (onDisconnect s).headMovementOn = s.headMovementOn ∧
    (onDisconnect s).avatar = s.avatar ∧
    (onDisconnect s).pendingBlinkRestore = s.pendingBlinkRestore ∧
    (onError s).agentStatus = "error" ∧
    (onError s).lipSyncOn = s.lipSyncOn ∧
    (onError s).blinkOn = s.blinkOn ∧
    (onError s).headMovementOn = s.headMovementOn ∧
    (onError s).callTimerOn = s.callTimerOn ∧
    (onError s).avatar = s.avatar ∧
    (onError s).pendingBlinkRestore = s.pendingBlinkRestore := by
  refine ⟨rfl, rfl, rfl, rfl, rfl, rfl, rfl, ?_, ?_, rfl, ?_, rfl, rfl, rfl,
    rfl, rfl, rfl, rfl, rfl, rfl, rfl, rfl, rfl, rfl, rfl⟩
  · simp [lipSyncTick, endCall, stopLipSync, stopBlinking, stopHeadMovement]
  · simp [blinkTick, endCall, stopLipSync, stopBlinking, stopHeadMovement]
  · cases hp : s.pendingBlinkRestore <;>
      simp [blinkRestoreFire, endCall, stopLipSync, stopBlinking,
        stopHeadMovement, setExpression, setMouthOpen, hp]

/-! ## Claims C2 and C4: the `speakWithLipSync` driver -/

/-- Session `a` can no longer act: its animation-frame callback is
cancelled and its element is not the one playing. -/
def deadSession (a : ℕ) (s : VoiceState) : Prop :=
  a ∉ s.scheduled ∧ s.current ≠ some a

theorem voiceStep_dead (a : ℕ) (e : VoiceEvent) (s : VoiceState)
    (hd : deadSession a s) (hfresh : ∀ n, e = .speak n → n ≠ a) :
    deadSession a (voiceStep e s).1 ∧ ∀ w ∈ (voiceStep e s).2, w.1 ≠ a := by
  obtain ⟨hsched, hcur⟩ := hd
  cases e with
  | speak n =>
      have hna : n ≠ a := hfresh n rfl
      cases hc : s.current with
      | none =>
          have hres : voiceStep (.speak n) s =
              (⟨some n, n :: s.scheduled, true⟩, []) := by
            simp [voiceStep, pauseCurrent, hc]
          rw [hres]
          refine ⟨⟨?_, by simpa using hna⟩, by simp⟩
          intro hmem
          rcases List.mem_cons.mp hmem with h | h
          · exact hna h.symm
          · exact hsched h
      | some c =>
          have hca : c ≠ a := fun hh => hcur (hh ▸ hc)
          have hres : voiceStep (.speak n) s =
              (⟨some n, n :: s.scheduled.erase c, true⟩, [(c, 0)]) := by
            simp [voiceStep, pauseCurrent, hc]
          rw [hres]
          refine ⟨⟨?_, by simpa using hna⟩, ?_⟩
          · intro hmem
            rcases List.mem_cons.mp hmem with h | h
            · exact hna h.symm
            · exact hsched (List.mem_of_mem_erase h)
          · intro w hw
            simp only [List.mem_singleton] at hw
            rw [hw]
            exact hca
  | rafFire b vol =>
      by_cases hb : b ∈ s.scheduled
      · have hba : b ≠ a := fun hh => hsched (hh ▸ hb)
        cases hc : s.current with
        | none =>
            have hres : voiceStep (.rafFire b vol) s =
                (⟨none, s.scheduled.erase b, s.speaking⟩, []) := by
              simp [voiceStep, hb, hc]
            rw [hres]
            exact ⟨⟨fun hmem => hsched (List.mem_of_mem_erase hmem), by simp⟩,
              by simp⟩
        | some c =>
            have hres : voiceStep (.rafFire b vol) s = (s, [(b, vol)]) := by
              simp [voiceStep, hb, hc]
            rw [hres]
            refine ⟨⟨hsched, hcur⟩, ?_⟩
            intro w hw
            simp only [List.mem_singleton] at hw
            rw [hw]
            exact hba
      · have hres : voiceStep (.rafFire b vol) s = (s, []) := by
          simp [voiceStep, hb]
        rw [hres]
        exact ⟨⟨hsched, hcur⟩, by simp⟩
  | audioEnded b =>
      by_cases hc : s.current = some b
      · have hba : b ≠ a := fun hh => hcur (hh ▸ hc)
        have hres : voiceStep (.audioEnded b) s =
            (⟨none, s.scheduled.erase b, false⟩, [(b, 0)]) := by
          simp [voiceStep, hc]
        rw [hres]
        refine ⟨⟨fun hmem => hsched (List.mem_of_mem_erase hmem), by simp⟩, ?_⟩
        intro w hw
        simp only [List.mem_singleton] at hw
        rw [hw]
        exact hba
      · have hres : voiceStep (.audioEnded b) s = (s, []) := by
          simp [voiceStep, hc]
        rw [hres]
        exact ⟨⟨hsched, hcur⟩, by simp⟩
  | audioError b =>
      by_cases hc : s.current = some b
      · have hres : voiceStep (.audioError b) s =
            (⟨s.current, s.scheduled, false⟩, []) := by
          simp [voiceStep, hc]
        rw [hres]
        exact ⟨⟨hsched, hcur⟩, by simp⟩
      · have hres : voiceStep (.audioError b) s = (s, []) := by
          simp [voiceStep, hc]
        rw [hres]
        exact ⟨⟨hsched, hcur⟩, by simp⟩

theorem voiceRun_dead (a : ℕ) (evts : List VoiceEvent) (s : VoiceState)
    (hd : deadSession a s) (hfresh : ∀ n, VoiceEvent.speak n ∈ evts → n ≠ a) :
    ∀ w ∈ (voiceRun evts s).2, w.1 ≠ a := by
  induction evts generalizing s with
  | nil => simp [voiceRun]
  | cons e es ih =>
      have hstep := voiceStep_dead a e s hd
        (fun n hn => hfresh n (hn ▸ List.mem_cons_self e es))
      intro w hw
      simp only [voiceRun, List.mem_append] at hw
      rcases hw with hw | hw
      · exact hstep.2 w hw
      · exact ih (voiceStep e s).1 hstep.1
          (fun n hn => hfresh n (List.mem_cons_of_mem e hn)) w hw

/-- C2: calling `speak(B)` while session `A` is active first pauses and
discards `A`'s audio element — `A`'s animation frame is cancelled and a
final `0` is written during the stop — and then starts `B`; afterwards no
write attributable to `A` is produced by any further events (`B`'s frame
loop, audio events, later `speak` calls with fresh sessions). -/
theorem speak_stops_previous (A B : ℕ) (s : VoiceState) (evts : List VoiceEvent)
    (hcur : s.current = some A) (hnd : s.scheduled.Nodup) (hBA : B ≠ A)
    (hfresh : ∀ n, VoiceEvent.speak n ∈ evts → n ≠ A) :
    (voiceStep (.speak B) s).1.current = some B ∧
    A ∉ (voiceStep (.speak B) s).1.scheduled ∧
    (A, (0 : ℚ)) ∈ (voiceStep (.speak B) s).2 ∧
    ∀ w ∈ (voiceRun evts (voiceStep (.speak B) s).1).2, w.1 ≠ A := by
  have hstate : voiceStep (.speak B) s =
      (⟨some B, B :: s.scheduled.erase A, true⟩, [(A, (0 : ℚ))]) := by
    simp [voiceStep, pauseCurrent, hcur]
  have hnotmem : A ∉ B :: s.scheduled.erase A := by
    intro hmem
    rcases List.mem_cons.mp hmem with hmem | hmem
    · exact hBA hmem.symm
    · exact ((hnd.mem_erase_iff).mp hmem).1 rfl
  refine ⟨by rw [hstate], by rw [hstate]; exact hnotmem, by rw [hstate]; simp, ?_⟩
  refine voiceRun_dead A evts _ ?_ hfresh
  rw [hstate]
  exact ⟨hnotmem, by simpa using hBA⟩

/-- C2 (witness): session 0 active and sampling; `speak` of fresh
session 1 followed by session 1's frame and ended events yields no
further session-0 writes. -/
theorem speak_stops_previous_witness :
    (voiceStep (.speak 1) ⟨some 0, [0], true⟩).1.current = some 1 ∧
    0 ∉ (voiceStep (.speak 1) ⟨some 0, [0], true⟩).1.scheduled ∧
    ((0 : ℕ), (0 : ℚ)) ∈ (voiceStep (.speak 1) ⟨some 0, [0], true⟩).2 ∧
    ∀ w ∈ (voiceRun [.rafFire 1 (1/2), .audioEnded 1]
        (voiceStep (.speak 1) ⟨some 0, [0], true⟩).1).2, w.1 ≠ 0 :=
  speak_stops_previous 0 1 ⟨some 0, [0], true⟩ [.rafFire 1 (1/2), .audioEnded 1]
    rfl (by decide) (by decide) (by intro n hn; simp at hn)

/-- C4 (counterexample): the claim says the driver stops sampling and
zeroes the mouth on the `error` path as on the `ended` path, but the
`onerror` handler only clears the speaking flag: on an active session it
emits no write (in particular no `0`) and leaves the animation-frame
loop scheduled on a still-playing element. -/
theorem audioError_leaves_loop_running :
    (voiceStep (.audioError 0) ⟨some 0, [0], true⟩).2 = [] ∧
    0 ∈ (voiceStep (.audioError 0) ⟨some 0, [0], true⟩).1.scheduled ∧
    (voiceStep (.audioError 0) ⟨some 0, [0], true⟩).1.current = some 0 ∧
    (voiceStep (.audioError 0) ⟨some 0, [0], true⟩).1.speaking = false := by
  simp [voiceStep]

/-- C4 (amended): when the playing audio ends, the driver cancels the
session's frame loop, forces a `0` mouth write and clears the speaking
flag; when it errors, only the speaking flag is cleared — no `0` write
is emitted and the frame loop stays scheduled. -/
theorem audio_ended_zeroes_error_does_not (s : VoiceState) (a : ℕ)
    (hcur : s.current = some a) (hnd : s.scheduled.Nodup) :
    (voiceStep (.audioEnded a) s).2 = [(a, (0 : ℚ))] ∧
    a ∉ (voiceStep (.audioEnded a) s).1.scheduled ∧
    (voiceStep (.audioEnded a) s).1.speaking = false ∧
    (voiceStep (.audioEnded a) s).1.current = none ∧
    (voiceStep (.audioError a) s).2 = [] ∧
    (voiceStep (.audioError a) s).1.speaking = false ∧
    (voiceStep (.audioError a) s).1.scheduled = s.scheduled := by
  refine ⟨?_, ?_, ?_, ?_, ?_, ?_, ?_⟩ <;> simp [voiceStep, hcur]
  intro hmem
  exact ((hnd.mem_erase_iff).mp hmem).1 rfl

/-- C4 (witness): the amended ended/error behaviour on a concrete
active session. -/
theorem audio_ended_zeroes_error_does_not_witness :
    (voiceStep (.audioEnded 3) ⟨some 3, [3], true⟩).2 = [((3 : ℕ), (0 : ℚ))] ∧
    3 ∉ (voiceStep (.audioEnded 3) ⟨some 3, [3], true⟩).1.scheduled ∧
    (voiceStep (.audioEnded 3) ⟨some 3, [3], true⟩).1.speaking = false ∧
    (voiceStep (.audioEnded 3) ⟨some 3, [3], true⟩).1.current = none ∧
    (voiceStep (.audioError 3) ⟨some 3, [3], true⟩).2 = [] ∧
    (voiceStep (.audioError 3) ⟨some 3, [3], true⟩).1.speaking = false ∧
    (voiceStep (.audioError 3) ⟨some 3, [3], true⟩).1.scheduled = [3] :=
  audio_ended_zeroes_error_does_not ⟨some 3, [3], true⟩ 3 rfl (by decide)

/-! ## Claim C5: blink cycle timing -/

theorem runBlink_open (rnd : ℕ → ℚ) (nb : ℚ) (j : ℕ)
    (h : (j : ℚ) * frameDelta ≤ nb) :
    runBlink rnd j ⟨0, false, nb⟩ = ⟨(j : ℚ) * frameDelta, false, nb⟩ := by
  induction j with
  | zero => simp [runBlink]
  | succ k ih =>
      have hfd : (0 : ℚ) ≤ frameDelta := by norm_num [frameDelta]
      have hk : (k : ℚ) * frameDelta ≤ nb := by
        refine le_trans (mul_le_mul_of_nonneg_right ?_ hfd) h
        exact_mod_cast Nat.le_succ k
      rw [runBlink, ih hk]
      have hcond : ¬((k : ℚ) * frameDelta + frameDelta > nb) := by
        rw [not_lt]
        calc (k : ℚ) * frameDelta + frameDelta
            = ((k : ℚ) + 1) * frameDelta := by ring
          _ = ((k + 1 : ℕ) : ℚ) * frameDelta := by push_cast; ring
          _ ≤ nb := h
      simp only [stepBlink, Bool.false_eq_true, if_false, hcond, if_neg hcond]
      have : ((k + 1 : ℕ) : ℚ) * frameDelta = (k : ℚ) * frameDelta + frameDelta := by
        push_cast; ring
      rw [this]

theorem runBlink_open_fires (rnd : ℕ → ℚ) (nb : ℚ) (h0 : 0 ≤ nb) :
    runBlink rnd (⌊60 * nb⌋₊ + 1) ⟨0, false, nb⟩ = ⟨0, true, nb⟩ := by
  have hfloor : ((⌊60 * nb⌋₊ : ℕ) : ℚ) * frameDelta ≤ nb := by
    have h1 : ((⌊60 * nb⌋₊ : ℕ) : ℚ) ≤ 60 * nb := Nat.floor_le (by linarith)
    rw [frameDelta]
    linarith
  rw [runBlink, runBlink_open rnd nb _ hfloor]
  have hcond : ((⌊60 * nb⌋₊ : ℕ) : ℚ) * frameDelta + frameDelta > nb := by
    have h2 : 60 * nb < ((⌊60 * nb⌋₊ : ℕ) : ℚ) + 1 := Nat.lt_floor_add_one (60 * nb)
    rw [frameDelta]
    linarith
  simp only [stepBlink, Bool.false_eq_true, if_false, if_pos hcond]

theorem runBlink_closed (rnd : ℕ → ℚ) (nb : ℚ) (j : ℕ) (h : j ≤ 6) :
    runBlink rnd j ⟨0, true, nb⟩ = ⟨(j : ℚ) * frameDelta, true, nb⟩ := by
  induction j with
  | zero => simp [runBlink]
  | succ k ih =>
      have hk : k ≤ 6 := Nat.le_of_succ_le h
      rw [runBlink, ih hk]
      have hcond : ¬((k : ℚ) * frameDelta + frameDelta > blinkDuration) := by
        rw [not_lt]
        have hk6 : ((k : ℚ) + 1) ≤ 6 := by exact_mod_cast h
        rw [frameDelta, blinkDuration]
        nlinarith
      simp only [stepBlink, if_true, hcond, if_neg hcond]
      have : ((k + 1 : ℕ) : ℚ) * frameDelta = (k : ℚ) * frameDelta + frameDelta := by
        push_cast; ring
      rw [this]
      simp

theorem runBlink_closed_ends (rnd : ℕ → ℚ) (nb : ℚ) :
    runBlink rnd 7 ⟨0, true, nb⟩ = ⟨0, false, drawNextBlink (rnd 6)⟩ := by
  have h6 : runBlink rnd 6 ⟨0, true, nb⟩ = ⟨(6 : ℚ) * frameDelta, true, nb⟩ := by
    have := runBlink_closed rnd nb 6 (le_refl 6)
    simpa using this
  show runBlink rnd (6 + 1) ⟨0, true, nb⟩ = _
  rw [runBlink, h6]
  have hcond : (6 : ℚ) * frameDelta + frameDelta > blinkDuration := by
    rw [frameDelta, blinkDuration]
    norm_num
  simp only [stepBlink, if_true, if_pos hcond]

/-- C5: for every random draw `r ∈ [0,1)` the redrawn delay
`1.5 + r * 2.5` lies in [1.5, 4); from the moment a blink ends, the
machine stays open for `k` frames with `k/60 ∈ (1.5, 4.0] ⊆ [1.5, 4.0]`
seconds before the next blink starts; and once a blink starts it holds
`isBlinking` (blink weight 1.0) for exactly 7 frames, `7/60 ≈ 0.117`
seconds, inside [0.1s, 0.2s]. -/
theorem blink_cycle_timing (rnd : ℕ → ℚ) (r : ℚ) (h0 : 0 ≤ r) (h1 : r < 1) :
    ((3 : ℚ)/2 ≤ drawNextBlink r ∧ drawNextBlink r < 4) ∧
    (∃ k : ℕ,
      (3 : ℚ)/2 < (k : ℚ) * frameDelta ∧ (k : ℚ) * frameDelta ≤ 4 ∧
      (∀ j, j < k →
        (runBlink rnd j ⟨0, false, drawNextBlink r⟩).isBlinking = false) ∧
      (runBlink rnd k ⟨0, false, drawNextBlink r⟩).isBlinking = true) ∧
    ((∀ j, j ≤ 6 →
        (runBlink rnd j ⟨0, true, drawNextBlink r⟩).isBlinking = true ∧
        appliedBlink (runBlink rnd j ⟨0, true, drawNextBlink r⟩) = 1) ∧
      (runBlink rnd 7 ⟨0, true, drawNextBlink r⟩).isBlinking = false ∧
      ((1 : ℚ)/10 ≤ 7 * frameDelta ∧ (7 : ℚ) * frameDelta ≤ 1/5)) := by
  set nb := drawNextBlink r with hnb
  have hnb_lo : (3 : ℚ)/2 ≤ nb := by rw [hnb, drawNextBlink]; nlinarith
  have hnb_hi : nb < 4 := by rw [hnb, drawNextBlink]; nlinarith
  have hnb_pos : (0 : ℚ) ≤ nb := by linarith
  refine ⟨⟨hnb_lo, hnb_hi⟩, ?_, ?_, ?_, ?_⟩
  · refine ⟨⌊60 * nb⌋₊ + 1, ?_, ?_, ?_, ?_⟩
    · have h2 : 60 * nb < ((⌊60 * nb⌋₊ : ℕ) : ℚ) + 1 := Nat.lt_floor_add_one (60 * nb)
      have : ((⌊60 * nb⌋₊ + 1 : ℕ) : ℚ) = ((⌊60 * nb⌋₊ : ℕ) : ℚ) + 1 := by push_cast; ring
      rw [this, frameDelta]
      nlinarith
    · have hle : ((⌊60 * nb⌋₊ : ℕ) : ℚ) ≤ 60 * nb := Nat.floor_le (by linarith)
      have hlt : ((⌊60 * nb⌋₊ : ℕ) : ℚ) < 240 := by linarith
      have hnat : ⌊60 * nb⌋₊ < 240 := by exact_mod_cast hlt
      have hnat1 : ⌊60 * nb⌋₊ + 1 ≤ 240 := hnat
      have hq : ((⌊60 * nb⌋₊ + 1 : ℕ) : ℚ) ≤ 240 := by exact_mod_cast hnat1
      rw [frameDelta]
      linarith
    · intro j hj
      have hjle : j ≤ ⌊60 * nb⌋₊ := Nat.lt_succ_iff.mp hj
      have hje : (j : ℚ) * frameDelta ≤ nb := by
        have hle : ((⌊60 * nb⌋₊ : ℕ) : ℚ) ≤ 60 * nb := Nat.floor_le (by linarith)
        have hjq : (j : ℚ) ≤ ((⌊60 * nb⌋₊ : ℕ) : ℚ) := by exact_mod_cast hjle
        rw [frameDelta]
        linarith
      rw [runBlink_open rnd nb j hje]
    · rw [runBlink_open_fires rnd nb hnb_pos]
  · intro j hj
    rw [runBlink_closed rnd nb j hj]
    exact ⟨rfl, by simp [appliedBlink]⟩
  · rw [runBlink_closed_ends rnd nb]
  · exact ⟨by norm_num [frameDelta], by norm_num [frameDelta]⟩

/-- C5 (witness): the blink timing facts at the concrete draw `r = 0`
(so the redrawn delay is exactly 1.5s) with all later draws 0. -/
theorem blink_cycle_timing_witness :
    ((3 : ℚ)/2 ≤ drawNextBlink 0 ∧ drawNextBlink 0 < 4) ∧
    (∃ k : ℕ,
      (3 : ℚ)/2 < (k : ℚ) * frameDelta ∧ (k : ℚ) * frameDelta ≤ 4 ∧
      (∀ j, j < k →
        (runBlink (fun _ => 0) j ⟨0, false, drawNextBlink 0⟩).isBlinking = false) ∧
      (runBlink (fun _ => 0) k ⟨0, false, drawNextBlink 0⟩).isBlinking = true) ∧
    ((∀ j, j ≤ 6 →
        (runBlink (fun _ => 0) j ⟨0, true, drawNextBlink 0⟩).isBlinking = true ∧
        appliedBlink (runBlink (fun _ => 0) j ⟨0, true, drawNextBlink 0⟩) = 1) ∧
      (runBlink (fun _ => 0) 7 ⟨0, true, drawNextBlink 0⟩).isBlinking = false ∧
      ((1 : ℚ)/10 ≤ 7 * frameDelta ∧ (7 : ℚ) * frameDelta ≤ 1/5)) :=
  blink_cycle_timing (fun _ => 0) 0 (by norm_num) (by norm_num)

/-! ## Claim C10: the `isProcessing` gate -/

/-- The number of outstanding generation requests is `1` exactly while
the gate is set. -/
def appInFlightInv (s : AppState) : Prop :=
  s.inFlight = (if s.isProcessing then 1 else 0)

theorem handleSendMessage_inFlightInv (t : String) (s : AppState)
    (h : appInFlightInv s) : appInFlightInv (handleSendMessage t s) := by
  unfold appInFlightInv at h ⊢
  unfold handleSendMessage
  cases hp : s.isProcessing with
  | true =>
      rw [hp] at h
      simp [hp, h]
  | false =>
      rw [hp] at h
      by_cases ht : (t.trim == "") = true
      · simp [hp, ht, h]
      · simp only [hp, Bool.false_or, ht, Bool.false_eq_true, if_false]
        simp at h
        simp [h]

theorem appStep_inFlightInv (e : AppEvent) (s : AppState)
    (h : appInFlightInv s) : appInFlightInv (appStep e s) := by
  cases e with
  | send t => exact handleSendMessage_inFlightInv t s h
  | voiceTranscript t =>
      unfold appStep handleVoiceTranscript
      by_cases hc : (!(t.trim == "") && !s.isProcessing) = true
      · simp only [hc, if_true]
        exact handleSendMessage_inFlightInv t s h
      · simp only [hc, Bool.false_eq_true, if_false]
        exact h
  | callTranscript t =>
      unfold appStep handleCallTranscript
      by_cases hc : (!(t.trim == "") && !s.isProcessing) = true
      · simp only [hc, if_true]
        exact handleSendMessage_inFlightInv t s h
      · simp only [hc, Bool.false_eq_true, if_false]
        exact h
  | responseComplete r =>
      have hred : appStep (.responseComplete r) s = handleResponseComplete r s := rfl
      rw [hred]
      unfold appInFlightInv at h ⊢
      unfold handleResponseComplete
      by_cases hz : s.inFlight = 0
      · rw [if_pos hz]
        exact h
      · cases hp : s.isProcessing with
        | true =>
            rw [hp] at h
            simp [hz, h]
        | false =>
            rw [hp] at h
            simp at h
            exact absurd h hz

theorem appRun_inFlightInv (evts : List AppEvent) (s : AppState)
    (h : appInFlightInv s) : appInFlightInv (appRun evts s) := by
  induction evts generalizing s with
  | nil => exact h
  | cons e es ih => exact ih (appStep e s) (appStep_inFlightInv e s h)

/-- C10: while `isProcessing` is set, `handleSendMessage` ignores the
input entirely (no message appended, no request started), the voice and
call transcript handlers are gated the same way, and consequently along
every event trace from the initial state at most one generation request
is in flight. -/
theorem processing_gate (t : String) (s : AppState) (evts : List AppEvent)
    (hp : s.isProcessing = true) :
    handleSendMessage t s = s ∧
    handleVoiceTranscript t s = s ∧
    handleCallTranscript t s = s ∧
    (appRun evts initialAppState).inFlight ≤ 1 := by
  refine ⟨?_, ?_, ?_, ?_⟩
  · unfold handleSendMessage
    simp [hp]
  · unfold handleVoiceTranscript
    simp [hp]
  · unfold handleCallTranscript
    simp [hp]
  · have hinv : appInFlightInv (appRun evts initialAppState) :=
      appRun_inFlightInv evts initialAppState (by simp [appInFlightInv, initialAppState])
    unfold appInFlightInv at hinv
    rw [hinv]
    by_cases hq : (appRun evts initialAppState).isProcessing = true <;> simp [hq]

/-- C10 (witness): concrete gated state and a concrete trace. -/
theorem processing_gate_witness :
    handleSendMessage "hello" ⟨true, true, [], 1⟩ = ⟨true, true, [], 1⟩ ∧
    handleVoiceTranscript "hello" ⟨true, true, [], 1⟩ = ⟨true, true, [], 1⟩ ∧
    handleCallTranscript "hello" ⟨true, true, [], 1⟩ = ⟨true, true, [], 1⟩ ∧
    (appRun [.send "hi", .responseComplete "ok"] initialAppState).inFlight ≤ 1 :=
  processing_gate "hello" ⟨true, true, [], 1⟩ [.send "hi", .responseComplete "ok"] rfl

end AiAnimeGirl
